import Mathlib

/-!
Verification of the Retrieval & Context Assembly Engine of the EPLC RAG
assistant (sources: `qa.py`, `generation.py`, `backend_api.py`).

The Python sources are shallowly embedded: external effects (vector-store
queries, embedding calls) are passed in as explicit result values, with
`Except` modelling a call that may raise; Python floats are modelled as
exact rationals (`ℚ`); Python's stable `list.sort(key=...)` is modelled by
stable insertion sort on the same key.
-/

namespace Rag

/-! ## Data model

`qa.py` merges results from two registered collections, appended in the
fixed order EPLC then HHS (`retrieve`, lines 144-148). -/

/-- The two vector collections registered in `qa.py`, in registration order. -/
inductive Source where
  | EPLC
  | HHS
deriving DecidableEq, Repr

/-- One retrieval hit as built by `qa.py`'s `retrieve`: the tuple
`(id_, doc_, dist_, tag)` appended to `combined`. Distances are modelled as
exact rationals. -/
structure Hit where
  id : String
  doc : String
  dist : ℚ
  src : Source
deriving DecidableEq, Repr

/-- The comparison key used by `combined.sort(key=lambda x: x[2])` in
`qa.py` line 154: ascending distance. -/
def distLE (a b : Hit) : Prop := a.dist ≤ b.dist

instance : DecidableRel distLE := fun a b => (inferInstance : Decidable (a.dist ≤ b.dist))

instance : IsTotal Hit distLE := ⟨fun a b => le_total a.dist b.dist⟩

instance : IsTrans Hit distLE := ⟨fun _ _ _ hab hbc => le_trans hab hbc⟩

/-- Python's `list.sort(key=lambda x: x[2])` is a stable ascending sort by
distance; a stable sort by a total preorder key is extensionally unique, so
insertion sort by `distLE` is its exact functional model. -/
def sortByDist (l : List Hit) : List Hit := List.insertionSort distLE l

/-- Tag every per-collection result triple `(id, document, distance)` with
its source, as the two `for` loops of `qa.py` lines 145-148 do. -/
def tagSrc (s : Source) (l : List (String × String × ℚ)) : List Hit :=
  l.map fun t => ⟨t.1, t.2.1, t.2.2, s⟩

/-- `qa.py` `retrieve` (lines 144-160), taking the already-zipped
per-collection result lists: concatenate EPLC hits then HHS hits, return
empty if nothing came back, otherwise sort ascending by distance (stable)
and truncate to `k`. -/
def retrieve (eplc hhs : List (String × String × ℚ)) (k : ℕ) : List Hit :=
  if (tagSrc Source.EPLC eplc ++ tagSrc Source.HHS hhs).isEmpty then []
  else (sortByDist (tagSrc Source.EPLC eplc ++ tagSrc Source.HHS hhs)).take k

/-- `qa.py` `retrieve` at the exception level: the two `coll.query` calls
(lines 125-142) are NOT wrapped in try/except, so a raising collection
propagates out of `retrieve`; only when both backend calls succeed does the
merge run. The EPLC collection is queried first. -/
def retrieve_run (eplcRes hhsRes : Except String (List (String × String × ℚ)))
    (k : ℕ) : Except String (List Hit) :=
  match eplcRes with
  | .error e => .error e
  | .ok l1 =>
    match hhsRes with
    | .error e => .error e
    | .ok l2 => .ok (retrieve l1 l2 k)

/-! ## Helper lemmas about the merge -/

theorem tagSrc_length (s : Source) (l : List (String × String × ℚ)) :
    (tagSrc s l).length = l.length := by
  simp [tagSrc]

theorem sortByDist_length (l : List Hit) : (sortByDist l).length = l.length :=
  List.length_insertionSort distLE l

theorem sortByDist_sorted (l : List Hit) : List.Sorted distLE (sortByDist l) :=
  List.sorted_insertionSort distLE l

/-- Stability of the merge sort: a pair already in order (weakly, by
distance) in the concatenated input keeps its relative order in the sorted
output. -/
theorem sortByDist_stable {a b : Hit} {l : List Hit}
    (hab : distLE a b) (h : List.Sublist [a, b] l) :
    List.Sublist [a, b] (sortByDist l) :=
  List.pair_sublist_insertionSort hab h

/-- The early-return branch of `retrieve` is redundant: the result is
always `take k` of the stable sort of the tagged concatenation. -/
theorem retrieve_eq_take (eplc hhs : List (String × String × ℚ)) (k : ℕ) :
    retrieve eplc hhs k
      = (sortByDist (tagSrc Source.EPLC eplc ++ tagSrc Source.HHS hhs)).take k := by
  rw [retrieve]
  split_ifs with hc
  · rw [List.isEmpty_iff] at hc
    rw [hc]
    simp [sortByDist]
  · rfl

/-! ## C1: merged result sorted, length min(k, total) -/

/-- Claim C1: for every pair of per-collection result lists and every
`k > 0`, the merged result of the multi-source `retrieve` is sorted
non-decreasing by distance and has length `min k (total hits)`. -/
theorem C1_retrieve_sorted_length (eplc hhs : List (String × String × ℚ))
    (k : ℕ) (_hk : 0 < k) :
    List.Sorted distLE (retrieve eplc hhs k)
      ∧ (retrieve eplc hhs k).length = min k (eplc.length + hhs.length) := by
  rw [retrieve_eq_take]
  constructor
  · exact (sortByDist_sorted _).sublist (List.take_sublist _ _)
  · rw [List.length_take, sortByDist_length, List.length_append,
      tagSrc_length, tagSrc_length]

/-- Witness for C1 at a concrete input: two EPLC hits, one HHS hit, k = 2. -/
theorem C1_retrieve_sorted_length_witness :
    List.Sorted distLE (retrieve [("a", "da", 1), ("b", "db", 3)] [("c", "dc", 2)] 2)
      ∧ (retrieve [("a", "da", 1), ("b", "db", 3)] [("c", "dc", 2)] 2).length
          = min 2 ([("a", "da", (1:ℚ)), ("b", "db", 3)].length + [("c", "dc", (2:ℚ))].length) :=
  C1_retrieve_sorted_length [("a", "da", 1), ("b", "db", 3)] [("c", "dc", 2)] 2 (by decide)

/-! ## C2: deterministic tie-break by source order then per-source rank -/

/-- Claim C2: ties by distance are broken deterministically. A hit from the
EPLC collection with the same distance as a hit from the HHS collection
precedes it in the merged ordering (source-registration order); any pair in
input order with non-decreasing distances (in particular equal-distance
hits of one source in per-source rank order) keeps its relative order; and
the merged output is exactly `take k` of this stable sort, a pure function
of the inputs, hence identical on repeated runs. -/
theorem C2_retrieve_tiebreak (eplc hhs : List (String × String × ℚ)) (k : ℕ)
    (x y : Hit) :
    (x ∈ tagSrc Source.EPLC eplc → y ∈ tagSrc Source.HHS hhs → x.dist = y.dist →
      List.Sublist [x, y] (sortByDist (tagSrc Source.EPLC eplc ++ tagSrc Source.HHS hhs)))
    ∧ (List.Sublist [x, y] (tagSrc Source.EPLC eplc ++ tagSrc Source.HHS hhs) →
        x.dist ≤ y.dist →
        List.Sublist [x, y] (sortByDist (tagSrc Source.EPLC eplc ++ tagSrc Source.HHS hhs)))
    ∧ retrieve eplc hhs k
        = (sortByDist (tagSrc Source.EPLC eplc ++ tagSrc Source.HHS hhs)).take k := by
  refine ⟨fun hx hy hd => ?_, fun hsub hd => sortByDist_stable hd hsub,
    retrieve_eq_take eplc hhs k⟩
  have hpair : List.Sublist [x, y]
      (tagSrc Source.EPLC eplc ++ tagSrc Source.HHS hhs) := by
    have h1 : List.Sublist [x] (tagSrc Source.EPLC eplc) :=
      List.singleton_sublist.mpr hx
    have h2 : List.Sublist [y] (tagSrc Source.HHS hhs) :=
      List.singleton_sublist.mpr hy
    exact h1.append h2
  exact sortByDist_stable (le_of_eq hd) hpair

/-- Witness for C2 at a concrete input: one EPLC hit and one HHS hit with
equal distance 2. -/
theorem C2_retrieve_tiebreak_witness :
    List.Sublist [Hit.mk "a" "da" 2 Source.EPLC, Hit.mk "c" "dc" 2 Source.HHS]
      (sortByDist (tagSrc Source.EPLC [("a", "da", 2)] ++ tagSrc Source.HHS [("c", "dc", 2)])) :=
  (C2_retrieve_tiebreak [("a", "da", 2)] [("c", "dc", 2)] 2
    (Hit.mk "a" "da" 2 Source.EPLC) (Hit.mk "c" "dc" 2 Source.HHS)).1
    (by decide) (by decide) (by decide)

/-! ## Generation-side pipeline (`generation.py`, `backend_api.py`)

A distance value handed back by the index client may fail to convert to a
float (`float(d)` raising inside `dist_to_sim`); `PyVal.nonNum` models such
a malformed value. -/

/-- A distance as received from the index: either a number or a malformed,
non-numeric value. -/
inductive PyVal where
  | num (q : ℚ)
  | nonNum (s : String)
deriving DecidableEq, Repr

/-- `Retriever.dist_to_sim` (`generation.py` 55-60) and
`EPLCBackend.dist_to_sim` (`backend_api.py` 77-83): `1.0 - float(d)`, with
every conversion failure caught and coerced to `0.0`. -/
def dist_to_sim : PyVal → ℚ
  | .num q => 1 - q
  | .nonNum _ => 0

/-- `Retriever.query` (`generation.py` 40-53) and
`EPLCBackend.query_database` (`backend_api.py` 61-75) at the exception
level: the whole body is wrapped in try/except, and any failure of the
embedding call or the collection query yields `([], [])`. -/
def retriever_query (res : Except String (List String × List PyVal)) :
    List String × List PyVal :=
  match res with
  | .ok r => r
  | .error _ => ([], [])

/-- The zipped pairs kept by the threshold filter's comprehension. -/
def kept_pairs (docs : List String) (dists : List PyVal) (simTh : ℚ) :
    List (String × PyVal) :=
  (docs.zip dists).filter fun p => simTh ≤ dist_to_sim p.2

/-- `filter_by_threshold` (`generation.py` 63-64, `backend_api.py` 85-88):
`[d for d, dist in zip(docs, dists) if dist_to_sim(dist) >= sim_th]`. -/
def filter_by_threshold (docs : List String) (dists : List PyVal) (simTh : ℚ) :
    List String :=
  (kept_pairs docs dists simTh).map Prod.fst

/-- Python's `sep.join(docs)`. -/
def joinSep (sep : String) : List String → String
  | [] => ""
  | [d] => d
  | d :: rest => d ++ sep ++ joinSep sep rest

/-- `join_context` (`generation.py` 66-67, `backend_api.py` 90-92):
`"\n\n---\n\n".join(docs) if docs else "(no strong matches)"`. -/
def join_context (docs : List String) : String :=
  if docs.isEmpty then "(no strong matches)" else joinSep "\n\n---\n\n" docs

/-- `max([dist_to_sim(d) for d in dists], default=0.0)` (`generation.py`
199, `backend_api.py` 178): fold of `max` over a non-empty list, `0.0` only
for the empty list. -/
def best_sim (dists : List PyVal) : ℚ :=
  match dists with
  | [] => 0
  | d :: ds => ds.foldl (fun acc x => max acc (dist_to_sim x)) (dist_to_sim d)

/-- The fixed disclaimer appended by the confidence gate (`generation.py`
201-207, `backend_api.py` 180-186). -/
def assumptionsBlock : String :=
  "\n\nAssumptions & Next Steps:\n- Confirm data categories and user groups.\n- Validate environmental dependencies.\n- List technical or security risks.\n- Identify owner responsibilities.\n"

/-- The confidence gate (`generation.py` 199-207, `backend_api.py`
178-186): append the assumptions disclaimer to the draft iff
`best_sim < min_sim * 0.75` (strict), over the PRE-filter distance list. -/
def apply_confidence_gate (draft : String) (dists : List PyVal) (minSim : ℚ) :
    String :=
  if best_sim dists < minSim * (3 / 4) then draft ++ assumptionsBlock else draft

/-! ## Exact-substring retrieval (`qa.py` `retrieve_exact`, lines 169-194) -/

/-- What one collection contributes inside `retrieve_exact`: on a raising
`coll.get` the loop does `continue`, i.e. contributes nothing. -/
def exact_contrib (r : Except String (List String × List String)) :
    List String × List String :=
  match r with
  | .error _ => ([], [])
  | .ok p => p

/-- `qa.py` `retrieve_exact` (lines 169-194) over the two collections'
`get(where_document=...)` outcomes: extend ids/docs per collection (skipping
a failing one), distances fixed at `0.0`, truncate all three lists when more
than `k` documents accumulated. -/
def retrieve_exact (r1 r2 : Except String (List String × List String))
    (k : ℕ) : List String × List String × List ℚ :=
  let c1 := exact_contrib r1
  let c2 := exact_contrib r2
  let ids := c1.1 ++ c2.1
  let docs := c1.2 ++ c2.2
  let dists := List.replicate c1.2.length (0 : ℚ) ++ List.replicate c2.2.length (0 : ℚ)
  if k < docs.length then (ids.take k, docs.take k, dists.take k)
  else (ids, docs, dists)

/-- The retrieval step of `qa.py` `main` (lines 247-252): try exact
substring retrieval first; if it produced no documents, use the semantic
`retrieve` result (passed here as `semRes`) for the same query instead. -/
def main_retrieve (r1 r2 : Except String (List String × List String))
    (semRes : List String × List String × List ℚ) (k : ℕ) :
    List String × List String × List ℚ :=
  if (retrieve_exact r1 r2 k).2.1.isEmpty then semRes
  else retrieve_exact r1 r2 k

/-! ## C3: fail-soft collection clients -/

/-- Counterexample to claim C3 as stated: in `qa.py`'s semantic `retrieve`,
an underlying nearest-neighbor query failure is NOT caught — it propagates
and aborts the whole multi-source query instead of contributing an empty
result set. Concretely, with the EPLC collection failing and the HHS
collection healthy, the engine yields the error, not the merge of the
healthy source. -/
theorem C3_counterexample :
    retrieve_run (Except.error "query failed") (Except.ok [("id1", "doc1", 1)]) 6
        = Except.error "query failed"
      ∧ retrieve_run (Except.error "query failed") (Except.ok [("id1", "doc1", 1)]) 6
          ≠ Except.ok (retrieve [] [("id1", "doc1", 1)] 6) := by
  constructor
  · rfl
  · simp [retrieve_run]

/-- Claim C3 amended: the generation-side collection clients
(`Retriever.query`, `EPLCBackend.query_database`) return an empty result
set on any query failure and never raise past the client boundary, and
`qa.py`'s exact-substring retrieval skips a failing collection; but
`qa.py`'s semantic `retrieve` propagates an underlying collection query
failure (whichever collection fails), aborting the multi-source query. -/
theorem C3_failsoft_amended :
    (∀ e, retriever_query (Except.error e) = ([], []))
    ∧ (∀ r, retriever_query (Except.ok r) = r)
    ∧ (∀ e r2 k, retrieve_exact (Except.error e) r2 k
        = retrieve_exact (Except.ok ([], [])) r2 k)
    ∧ (∀ e r k, retrieve_run (Except.error e) r k = Except.error e)
    ∧ (∀ l1 e k, retrieve_run (Except.ok l1) (Except.error e) k = Except.error e) :=
  ⟨fun _ => rfl, fun _ => rfl, fun _ _ _ => rfl, fun _ _ _ => rfl, fun _ _ _ => rfl⟩

/-! ## C4: confidence-gate boundary -/

set_option maxRecDepth 4000 in
/-- Claim C4: the gate appends the assumptions disclaimer iff
`best_sim < floor * 0.75` with a strict comparison; with floor `0.35` a
best similarity of exactly `0.2625` does not trigger it while `0.2624`
does; and with zero hits it always fires for any positive floor. -/
theorem C4_confidence_gate (draft : String) (dists : List PyVal) (floor : ℚ) :
    (apply_confidence_gate draft dists floor = draft ++ assumptionsBlock
        ↔ best_sim dists < floor * (3 / 4))
    ∧ (best_sim dists = 2625 / 10000 →
        apply_confidence_gate draft dists (35 / 100) = draft)
    ∧ (best_sim dists = 2624 / 10000 →
        apply_confidence_gate draft dists (35 / 100) = draft ++ assumptionsBlock)
    ∧ (0 < floor → apply_confidence_gate draft [] floor = draft ++ assumptionsBlock) := by
  have hlen : assumptionsBlock.length ≠ 0 := by decide
  refine ⟨⟨fun h => ?_, fun h => by rw [apply_confidence_gate, if_pos h]⟩,
    fun h => ?_, fun h => ?_, fun h => ?_⟩
  · by_contra hc
    rw [apply_confidence_gate, if_neg hc] at h
    have := congrArg String.length h
    rw [String.length_append] at this
    omega
  · rw [apply_confidence_gate, if_neg]
    rw [h]
    norm_num
  · rw [apply_confidence_gate, if_pos]
    rw [h]
    norm_num
  · rw [apply_confidence_gate, if_pos]
    show (0 : ℚ) < floor * (3 / 4)
    positivity

/-- Witness for C4 at concrete inputs: similarities 0.2624 (fires), 0.2625
(does not fire), and the empty hit list with floor 0.5 (fires). -/
theorem C4_confidence_gate_witness :
    apply_confidence_gate "d" [PyVal.num (7376 / 10000)] (35 / 100)
        = "d" ++ assumptionsBlock
      ∧ apply_confidence_gate "d" [PyVal.num (7375 / 10000)] (35 / 100) = "d"
      ∧ apply_confidence_gate "d" [] (1 / 2) = "d" ++ assumptionsBlock := by
  refine ⟨(C4_confidence_gate "d" [PyVal.num (7376 / 10000)] (35 / 100)).2.2.1 ?_,
    (C4_confidence_gate "d" [PyVal.num (7375 / 10000)] (35 / 100)).2.1 ?_,
    (C4_confidence_gate "d" [] (1 / 2)).2.2.2 (by norm_num)⟩
  · show dist_to_sim (PyVal.num (7376 / 10000)) = 2624 / 10000
    rw [dist_to_sim]
    norm_num
  · show dist_to_sim (PyVal.num (7375 / 10000)) = 2625 / 10000
    rw [dist_to_sim]
    norm_num

/-! ## Startup dimension validation (`qa.py` lines 63-112) -/

/-- What `check_dim` does with one collection: exit the process with a
labelled fatal message, print only a warning, or pass silently. -/
inductive CheckOutcome where
  | fatalExit (msg : String)
  | warned (msg : String)
  | passed
deriving DecidableEq, Repr

/-- `qa.py` `check_dim` (lines 92-101): a collection with unknown embedding
dimension gets a warning and the check is skipped; a known dimension
different from the model's probe dimension prints a labelled mismatch
message and calls `sys.exit(1)`. -/
def check_dim (modelDim : ℕ) (name : String) (embDim : Option ℕ) : CheckOutcome :=
  match embDim with
  | none => .warned ("[check] warning: could not infer embedding dim for "
      ++ name ++ "; skip dim check")
  | some d =>
    if d ≠ modelDim then
      .fatalExit ("[check] Embedding dim mismatch for " ++ name
        ++ ": collection=" ++ toString d ++ ", model=" ++ toString modelDim)
    else .passed

/-- `qa.py` `probe_index` (lines 63-82) over the outcome of
`c.get(limit=1, include=["embeddings"])`: `none` when the client raised,
reported no embeddings field, or an empty embedding list; otherwise the
length of the first stored vector. -/
def probe_index (peek : Except String (Option (List (List ℚ)))) : Option ℕ :=
  match peek with
  | .error _ => none
  | .ok none => none
  | .ok (some []) => none
  | .ok (some (first :: _)) => some first.length

/-- Claim C5: a probed dimension different from the model dimension is a
fatal, labelled error naming the collection; an unprobeable dimension
(client error, missing or empty embeddings) yields only a warning, never a
fatal exit. -/
theorem C5_dim_validator (m d : ℕ) (name : String) :
    (d ≠ m → check_dim m name (some d)
        = CheckOutcome.fatalExit ("[check] Embedding dim mismatch for " ++ name
            ++ ": collection=" ++ toString d ++ ", model=" ++ toString m))
    ∧ check_dim m name none
        = CheckOutcome.warned ("[check] warning: could not infer embedding dim for "
            ++ name ++ "; skip dim check")
    ∧ (∀ msg, check_dim m name none ≠ CheckOutcome.fatalExit msg)
    ∧ (∀ s, probe_index (Except.error s) = none)
    ∧ probe_index (Except.ok none) = none
    ∧ probe_index (Except.ok (some [])) = none := by
  refine ⟨fun h => ?_, rfl, fun msg hmsg => by simp [check_dim] at hmsg,
    fun s => rfl, rfl, rfl⟩
  rw [check_dim, if_pos h]

/-- Witness for C5: the spec's scenario, model dimension 1024 against a
collection storing 768-wide vectors. -/
theorem C5_dim_validator_witness :
    check_dim 1024 "HHS_db" (some 768)
      = CheckOutcome.fatalExit ("[check] Embedding dim mismatch for " ++ "HHS_db"
          ++ ": collection=" ++ toString 768 ++ ", model=" ++ toString 1024) :=
  (C5_dim_validator 1024 768 "HHS_db").1 (by decide)

/-! ## C6 and C7: the threshold filter -/

theorem map_fst_zip_sublist {α β : Type} :
    ∀ (l1 : List α) (l2 : List β), List.Sublist ((l1.zip l2).map Prod.fst) l1
  | [], _ => by simp
  | _ :: _, [] => by simp
  | a :: l1, b :: l2 => by
    simp only [List.zip_cons_cons, List.map_cons]
    exact (map_fst_zip_sublist l1 l2).cons₂ a

/-- Claim C6: the filter keeps exactly the documents whose similarity
`1 - distance` reaches the floor, in input order (its output is a sublist
of the input documents); a malformed distance has similarity `0`, so a
whole batch of malformed distances is dropped for any positive floor. The
filter is a total function: malformed input never makes it raise. -/
theorem C6_filter_threshold (docs : List String) (dists : List PyVal) (th : ℚ) :
    List.Sublist (filter_by_threshold docs dists th) docs
    ∧ (∀ x, x ∈ filter_by_threshold docs dists th
        ↔ ∃ v, (x, v) ∈ docs.zip dists ∧ th ≤ dist_to_sim v)
    ∧ (∀ s, dist_to_sim (PyVal.nonNum s) = 0)
    ∧ (0 < th → ∀ s n,
        filter_by_threshold docs (List.replicate n (PyVal.nonNum s)) th = []) := by
  refine ⟨?_, fun x => ?_, fun _ => rfl, fun hth s n => ?_⟩
  · exact ((List.filter_sublist _).map Prod.fst).trans (map_fst_zip_sublist docs dists)
  · simp only [filter_by_threshold, kept_pairs, List.mem_map, List.mem_filter,
      decide_eq_true_eq]
    constructor
    · rintro ⟨⟨a, v⟩, ⟨hm, hd⟩, rfl⟩
      exact ⟨v, hm, hd⟩
    · rintro ⟨v, hm, hd⟩
      exact ⟨(x, v), ⟨hm, hd⟩, rfl⟩
  · rw [filter_by_threshold, kept_pairs]
    rw [List.filter_eq_nil_iff.mpr, List.map_nil]
    rintro ⟨a, v⟩ hm
    have hv : v ∈ List.replicate n (PyVal.nonNum s) := (List.of_mem_zip hm).2
    rw [List.eq_of_mem_replicate hv]
    simp only [dist_to_sim, decide_eq_true_eq, not_le]
    exact hth

/-- Witness for C6: floor 0.45, one good document (similarity 0.5) and one
malformed distance; the filter keeps exactly the good document, and an
all-malformed batch yields nothing. -/
theorem C6_filter_threshold_witness :
    ("a" ∈ filter_by_threshold ["a", "b"] [PyVal.num (1 / 2), PyVal.nonNum "NaN"] (45 / 100)
        ↔ ∃ v, ("a", v) ∈ (["a", "b"].zip [PyVal.num (1 / 2), PyVal.nonNum "NaN"])
            ∧ 45 / 100 ≤ dist_to_sim v)
    ∧ filter_by_threshold ["a", "b"] (List.replicate 2 (PyVal.nonNum "NaN")) (45 / 100) = [] :=
  ⟨(C6_filter_threshold ["a", "b"] [PyVal.num (1 / 2), PyVal.nonNum "NaN"] (45 / 100)).2.1 "a",
    (C6_filter_threshold ["a", "b"] (List.replicate 2 (PyVal.nonNum "NaN")) (45 / 100)).2.2.2
      (by norm_num) "NaN" 2⟩

/-- Claim C7: the threshold filter is idempotent — refiltering the kept
documents (paired with their own distances) at the same floor returns them
unchanged. -/
theorem C7_filter_idempotent (docs : List String) (dists : List PyVal) (th : ℚ) :
    filter_by_threshold ((kept_pairs docs dists th).map Prod.fst)
        ((kept_pairs docs dists th).map Prod.snd) th
      = filter_by_threshold docs dists th := by
  have hz : ((kept_pairs docs dists th).map Prod.fst).zip
      ((kept_pairs docs dists th).map Prod.snd) = kept_pairs docs dists th := by
    rw [← List.unzip_fst, ← List.unzip_snd, List.zip_unzip]
  rw [filter_by_threshold, filter_by_threshold, kept_pairs, hz]
  congr 1
  apply List.filter_eq_self.mpr
  intro a ha
  exact (List.mem_filter.mp ha).2

/-! ## C8: the context assembler -/

/-- Claim C8: `join_context` of the empty sequence is exactly the sentinel
`"(no strong matches)"`; of a single document it is that document's text
with no delimiter; of two or more documents it joins them with the fixed
delimiter `"\n\n---\n\n"`. It is a pure function performing no I/O. -/
theorem C8_join_context :
    join_context [] = "(no strong matches)"
    ∧ (∀ t, join_context [t] = t)
    ∧ (∀ a b rest, join_context (a :: b :: rest)
        = a ++ "\n\n---\n\n" ++ join_context (b :: rest)) :=
  ⟨rfl, fun _ => rfl, fun _ _ _ => rfl⟩

/-! ## C9: exact-first, semantic fallback -/

/-- Claim C9: the QA main loop first attempts exact substring retrieval,
and if and only if it yields zero documents, uses the semantic retrieval
result (for the same query text) instead of an empty answer. -/
theorem C9_exact_then_fallback (r1 r2 : Except String (List String × List String))
    (sem : List String × List String × List ℚ) (k : ℕ) :
    ((retrieve_exact r1 r2 k).2.1 = [] → main_retrieve r1 r2 sem k = sem)
    ∧ ((retrieve_exact r1 r2 k).2.1 ≠ [] →
        main_retrieve r1 r2 sem k = retrieve_exact r1 r2 k) := by
  constructor
  · intro h
    rw [main_retrieve, if_pos (by rw [List.isEmpty_iff]; exact h)]
  · intro h
    rw [main_retrieve, if_neg (by rw [List.isEmpty_iff]; exact h)]

/-- Witness for C9: with both collections yielding no exact match (one of
them failing), the semantic result is used; with one exact hit, the exact
result is used. -/
theorem C9_exact_then_fallback_witness :
    main_retrieve (Except.ok ([], [])) (Except.error "e") (["si"], ["sd"], [1]) 6
        = (["si"], ["sd"], [(1 : ℚ)])
    ∧ main_retrieve (Except.ok (["i"], ["d"])) (Except.error "e") (["si"], ["sd"], [1]) 6
        = retrieve_exact (Except.ok (["i"], ["d"])) (Except.error "e") 6 :=
  ⟨(C9_exact_then_fallback (Except.ok ([], [])) (Except.error "e")
      (["si"], ["sd"], [1]) 6).1 (by decide),
    (C9_exact_then_fallback (Except.ok (["i"], ["d"])) (Except.error "e")
      (["si"], ["sd"], [1]) 6).2 (by decide)⟩

/-! ## C10: unknown phase handling in the backend (`backend_api.py`) -/

/-- Python's `str.lower()` (ASCII case folding, which covers every phase
string the backend compares against). -/
def lower (s : String) : String := String.mk (s.data.map Char.toLower)

/-- The keys of `EPLCBackend.PHASE_PATHS` (`backend_api.py` 45-50), in
insertion order. -/
def PHASE_KEYS : List String := ["requirement", "design", "implementation", "development"]

/-- The dict returned by the two backend entry points: `success`, the
payload (`draft` or `answer`), and `error`. -/
structure BackendResult where
  success : Bool
  payload : Option String
  error : Option String
deriving DecidableEq, Repr

/-- Everything an entry point does after resolving the phase (path check,
collection lookup, retrieval, generation), abstracted as a fallible
computation on the resolved phase; the surrounding try/except turns an
exception into a `success=False` dict (`backend_api.py` 194-199 and
264-269) and a normal return into a `success=True` dict. -/
def run_pipeline (rest : String → Except String String) (p : String) : BackendResult :=
  match rest p with
  | .ok a => ⟨true, some a, none⟩
  | .error e => ⟨false, none, some e⟩

/-- `EPLCBackend.answer_question` (`backend_api.py` 201-269): lowercase the
phase, silently fall back to `"implementation"` when it is not a registered
key, then run the rest of the pipeline. -/
def answer_question (phase : String) (rest : String → Except String String) :
    BackendResult :=
  run_pipeline rest (if lower phase ∈ PHASE_KEYS then lower phase else "implementation")

/-- `EPLCBackend.generate_document_section` (`backend_api.py` 106-199):
lowercase the phase and return a structured `success=False` result naming
the valid phases when it is not a registered key. -/
def generate_document_section (phase : String) (rest : String → Except String String) :
    BackendResult :=
  if lower phase ∈ PHASE_KEYS then run_pipeline rest (lower phase)
  else ⟨false, none,
    some "Invalid phase. Must be one of: requirement, design, implementation, development"⟩

/-- Claim C10: on a phase that is not (case-insensitively) one of the four
registered phases, `answer_question` silently substitutes
`"implementation"` and behaves exactly as if called with that phase,
succeeding whenever the rest of the pipeline succeeds, while
`generate_document_section` returns a structured failure with
`success = false` and an explanatory message; both are total functions, so
neither raises on an unknown phase. -/
theorem C10_invalid_phase (phase : String)
    (rest rest2 : String → Except String String)
    (h : lower phase ∉ PHASE_KEYS) :
    answer_question phase rest = answer_question "implementation" rest
    ∧ (∀ a, rest "implementation" = Except.ok a →
        answer_question phase rest = ⟨true, some a, none⟩)
    ∧ generate_document_section phase rest2
        = ⟨false, none,
            some "Invalid phase. Must be one of: requirement, design, implementation, development"⟩ := by
  have h1 : answer_question phase rest = run_pipeline rest "implementation" := by
    rw [answer_question, if_neg h]
  have h2 : lower "implementation" = "implementation" := by decide
  refine ⟨?_, fun a ha => ?_, ?_⟩
  · rw [h1, answer_question, if_pos (by rw [h2]; decide), h2]
  · rw [h1, run_pipeline, ha]
  · rw [generate_document_section, if_neg h]

/-- Witness for C10 with the unregistered phase string `"Testing"`. -/
theorem C10_invalid_phase_witness :
    answer_question "Testing" (fun _ => Except.ok "ans")
        = ⟨true, some "ans", none⟩
    ∧ generate_document_section "Testing" (fun _ => Except.ok "draft")
        = ⟨false, none,
            some "Invalid phase. Must be one of: requirement, design, implementation, development"⟩ :=
  ⟨(C10_invalid_phase "Testing" (fun _ => Except.ok "ans")
      (fun _ => Except.ok "draft") (by decide)).2.1 "ans" rfl,
    (C10_invalid_phase "Testing" (fun _ => Except.ok "ans")
      (fun _ => Except.ok "draft") (by decide)).2.2⟩

end Rag
